import Mathlib

/-!
Verification of the EcoTrace content-authenticity application.

Numbers are modelled as rationals (`ℚ`); JavaScript string-keyed lookups
become explicit conditionals; React components become functions from their
props to a description of what they render (`none` = the component returns
`null`). The multi-model consensus core is not part of the repository (the
repository only ships its TypeScript declarations and UI consumers), so it
is modelled from the specification where noted.
-/

namespace EcoTrace

/-! ## Data model (from the TypeScript declarations, src/unnamed/part_000-ish
`types` module: `ContentType`, `Verdict`, `AgreementLevel`, `Source`,
`ModelOutput`, `EvidenceItem`, `Analysis`). -/

inductive Verdict
  | ai_generated
  | real
deriving DecidableEq, Repr

inductive AgreementLevel
  | high
  | medium
  | low
deriving DecidableEq, Repr

inductive ContentType
  | image
  | text
  | video
deriving DecidableEq, Repr

inductive Source
  | web
  | extension
deriving DecidableEq, Repr

/-- The canonical per-model record stored inside an `Analysis`
(`ModelOutput` in the TypeScript declarations; called `NormalizedOutput`
in the specification). -/
structure ModelOutput where
  model : String
  verdict : Verdict
  confidence : ℚ
  reasons : List String
  structural_flags : List String
  weight : ℚ
  normalized_score : ℚ
deriving DecidableEq, Repr

/-- An evidence entry. The TypeScript declaration restricts `severity` to
`"high" | "medium" | "low"`, but TypeScript types are erased at runtime, so
the UI components receive an arbitrary string; we model the runtime shape. -/
structure EvidenceItem where
  type : String
  description : String
  severity : String
deriving DecidableEq, Repr

/-- The persisted aggregate (the `analyses` row / `Analysis` interface). -/
structure Analysis where
  id : String
  user_id : String
  request_id : String
  content_type : ContentType
  final_verdict : Verdict
  ai_likelihood : ℚ
  agreement_level : AgreementLevel
  scam_risk_score : ℚ
  behavioral_score : ℚ
  model_outputs : List ModelOutput
  evidence : List EvidenceItem
  source : Source
  created_at : String
deriving DecidableEq, Repr

/-! ## ScamRiskIndicator (src/components/analysis/ScamRiskIndicator.tsx)

The component returns `null` when `score <= 0`; otherwise it renders a panel
whose headline label comes from `getLabel`. -/

/-- `getLabel` from ScamRiskIndicator.tsx: `score >= 0.7` → "High Risk",
`score >= 0.4` → "Moderate Risk", otherwise "Low Risk". -/
def scamRiskLabel (score : ℚ) : String :=
  if 7/10 ≤ score then "High Risk"
  else if 4/10 ≤ score then "Moderate Risk"
  else "Low Risk"

/-- `getColor` from ScamRiskIndicator.tsx. -/
def scamRiskColor (score : ℚ) : String :=
  if 7/10 ≤ score then "#FF6B6B"
  else if 4/10 ≤ score then "#FF8C42"
  else "#FFC107"

/-- The rendering decision of `ScamRiskIndicator`: `if (score <= 0) return
null;` and otherwise a panel headlined by `getLabel()`. -/
def scamRiskRender (score : ℚ) : Option String :=
  if score ≤ 0 then none
  else some (scamRiskLabel score)

/-! ## EvidenceList (src/components/analysis/EvidenceList.tsx)

`if (!evidence || evidence.length === 0) return null;` and per item the
presentation config is `severityConfig[item.severity] || severityConfig.low`. -/

/-- One entry of the `severityConfig` object literal in EvidenceList.tsx. -/
structure SeverityConfig where
  icon : String
  color : String
  bg : String
  border : String
deriving DecidableEq, Repr

def severityConfigHigh : SeverityConfig :=
  { icon := "AlertCircle", color := "text-[#FF6B6B]",
    bg := "bg-[#FF6B6B]/10", border := "border-[#FF6B6B]/20" }

def severityConfigMedium : SeverityConfig :=
  { icon := "AlertTriangle", color := "text-[#FFC107]",
    bg := "bg-[#FFC107]/10", border := "border-[#FFC107]/20" }

def severityConfigLow : SeverityConfig :=
  { icon := "Info", color := "text-[#667EEA]",
    bg := "bg-[#667EEA]/10", border := "border-[#667EEA]/20" }

/-- The property names every plain JavaScript object literal inherits from
`Object.prototype`; bracket lookup with one of these keys returns a truthy
inherited member (a function, or the prototype object for `__proto__`),
not `undefined`. -/
def objectPrototypeKeys : List String :=
  ["constructor", "hasOwnProperty", "isPrototypeOf", "propertyIsEnumerable",
   "toLocaleString", "toString", "valueOf", "__proto__",
   "__defineGetter__", "__defineSetter__", "__lookupGetter__",
   "__lookupSetter__"]

/-- The possible results of the bracket lookup `severityConfig[item.severity]`
on the `severityConfig` object literal: one of the three declared configs (an
own property), a truthy member inherited from `Object.prototype`, or
`undefined`. -/
inductive SeverityLookup
  | config (c : SeverityConfig)
  | inherited
  | undef
deriving DecidableEq, Repr

/-- `severityConfig[item.severity]`: own properties first, then the
prototype chain, then `undefined`. -/
def severityConfigGet (s : String) : SeverityLookup :=
  if s = "high" then SeverityLookup.config severityConfigHigh
  else if s = "medium" then SeverityLookup.config severityConfigMedium
  else if s = "low" then SeverityLookup.config severityConfigLow
  else if s ∈ objectPrototypeKeys then SeverityLookup.inherited
  else SeverityLookup.undef

/-- `const config = severityConfig[item.severity] || severityConfig.low;`
followed by `const Icon = config.icon; ... <Icon ... />`: `||` falls back to
the low config exactly when the lookup is falsy (`undefined`). An inherited
`Object.prototype` member is truthy and is kept, its `.icon` is `undefined`,
and React throws when asked to render `<Icon />` — modelled as `none`. -/
def evidenceItemConfig (item : EvidenceItem) : Option SeverityConfig :=
  match severityConfigGet item.severity with
  | SeverityLookup.config c => some c
  | SeverityLookup.inherited => none
  | SeverityLookup.undef => some severityConfigLow

/-- Resolving all items of the evidence list: any item whose config access
throws aborts the whole component render. -/
def resolveConfigs : List EvidenceItem →
    Option (List (EvidenceItem × SeverityConfig))
  | [] => some []
  | e :: es =>
    match evidenceItemConfig e, resolveConfigs es with
    | some c, some rest => some ((e, c) :: rest)
    | _, _ => none

/-- What `EvidenceList` does with its prop: return `null` (absent or empty
evidence), render the items with their resolved configs, or throw during
render. -/
inductive EvidenceListResult
  | null
  | rendered (items : List (EvidenceItem × SeverityConfig))
  | renderError
deriving DecidableEq, Repr

/-- The rendering decision of `EvidenceList`. -/
def evidenceListRender (evidence : Option (List EvidenceItem)) :
    EvidenceListResult :=
  match evidence with
  | none => EvidenceListResult.null
  | some es =>
    if es.length = 0 then EvidenceListResult.null
    else
      match resolveConfigs es with
      | none => EvidenceListResult.renderError
      | some items => EvidenceListResult.rendered items

/-! ## The consensus core

The multi-model consensus engine itself is not in the repository — the
repository ships only its data declarations and UI consumers — so the
components below are modelled from the specification (sections 4.1–4.6
and 7). -/

/-- Modelled from the spec: a raw per-model result as received from an
external model call, before boundary validation (spec sections 3 and 9);
the verdict is still an arbitrary label and the confidence an arbitrary
number. The backend implementation is absent from the repository. -/
structure RawModelOutput where
  model : String
  verdict : String
  confidence : ℚ
  reasons : List String
  structural_flags : List String
deriving DecidableEq, Repr

/-- Modelled from the spec: boundary validation of the verdict label; only
"ai_generated" and "real" are known (spec sections 3 and 7). -/
def parseVerdict (s : String) : Option Verdict :=
  if s = "ai_generated" then some Verdict.ai_generated
  else if s = "real" then some Verdict.real
  else none

/-- Modelled from the spec: the Normalizer (spec section 4.1) combined with
the malformed-output policy (spec section 7): an unknown verdict label or a
confidence outside [0,1] makes the single output be discarded (`none`), never
clamped; otherwise `normalized_score = verdict == ai_generated ? confidence :
1 - confidence`. The `weight` field is left 0 here and resolved subsequently
by the Weight Resolver. -/
def normalizeRaw (r : RawModelOutput) : Option ModelOutput :=
  match parseVerdict r.verdict with
  | none => none
  | some v =>
    if 0 ≤ r.confidence ∧ r.confidence ≤ 1 then
      some { model := r.model, verdict := v, confidence := r.confidence,
             reasons := r.reasons, structural_flags := r.structural_flags,
             weight := 0,
             normalized_score :=
               if v = Verdict.ai_generated then r.confidence
               else 1 - r.confidence }
    else none

/-- Modelled from the spec: the usable outputs of a batch are the raw
outputs that survive normalization (spec section 7). -/
def usableOutputs (raws : List RawModelOutput) : List ModelOutput :=
  raws.filterMap normalizeRaw

/-- Modelled from the spec: the Weight Resolver (spec section 4.2) —
`weight_i = base_i / Σ base_j` over live models only, where `base` is the
static per-content-type base-weight configuration. -/
def resolveWeight (base : String → ℚ) (live : List String) (m : String) : ℚ :=
  base m / (live.map base).sum

/-- Modelled from the spec: attach resolved weights to the normalized
outputs; the live set is exactly the models that produced a usable output. -/
def attachWeights (base : String → ℚ) (outs : List ModelOutput) :
    List ModelOutput :=
  outs.map fun o =>
    { o with weight := resolveWeight base (outs.map ModelOutput.model) o.model }

/-- Modelled from the spec: the Consensus Aggregator's likelihood (spec
section 4.3): `ai_likelihood = Σ (normalized_score_i × weight_i)`. -/
def aiLikelihood (outs : List ModelOutput) : ℚ :=
  (outs.map fun o => o.normalized_score * o.weight).sum

/-- Modelled from the spec: the Consensus Aggregator's discrete verdict
(spec section 4.3): `ai_generated` iff `ai_likelihood ≥ 0.5`, the tie at
exactly 0.5 going to `ai_generated`. -/
def finalVerdict (outs : List ModelOutput) : Verdict :=
  if 1/2 ≤ aiLikelihood outs then Verdict.ai_generated else Verdict.real

/-- Modelled from the spec: max−min spread of the scores (spec section 4.4
offers variance or max−min spread; we use the spread). -/
def scoreSpread : List ℚ → ℚ
  | [] => 0
  | s :: rest => rest.foldl max s - rest.foldl min s

/-- Modelled from the spec: the Agreement Classifier (spec section 4.4),
with the spec's example cutoffs: spread < 0.15 → high, < 0.35 → medium,
else low. -/
def agreementOf (scores : List ℚ) : AgreementLevel :=
  if scoreSpread scores < 15/100 then AgreementLevel.high
  else if scoreSpread scores < 35/100 then AgreementLevel.medium
  else AgreementLevel.low

/-- Modelled from the spec: the Evidence Synthesizer (spec section 4.5) —
deduplicated evidence derived from the structural flags, severities taken
from an external lookup table `sev`. -/
def synthesizeEvidence (sev : String → String) (outs : List ModelOutput) :
    List EvidenceItem :=
  ((outs.map ModelOutput.structural_flags).flatten.eraseDups).map
    fun f => { type := f, description := f, severity := sev f }

/-- Modelled from the spec: the error signalled when a request has zero
usable model outputs (spec section 7). -/
inductive PipelineError
  | noAnalysisPossible
deriving DecidableEq, Repr

/-- Caller-supplied context for one analysis request (spec section 4.6). -/
structure RequestContext where
  id : String
  user_id : String
  request_id : String
  content_type : ContentType
  source : Source
  behavioral_score : ℚ
  created_at : String
deriving DecidableEq, Repr

/-- Modelled from the spec: the whole consensus pipeline (spec sections
4.1–4.6 and 7). `base` is the per-content-type base-weight table, `sev` the
flag-severity table and `risk` the deception-flag risk scorer — all external
configuration. A batch with zero usable outputs fails with
`noAnalysisPossible` and assembles no `Analysis`. -/
def runPipeline (base : String → ℚ) (sev : String → String)
    (risk : List String → ℚ) (ctx : RequestContext)
    (raws : List RawModelOutput) : Except PipelineError Analysis :=
  match usableOutputs raws with
  | [] => Except.error PipelineError.noAnalysisPossible
  | o :: rest =>
    let outs := o :: rest
    let weighted := attachWeights base outs
    Except.ok
      { id := ctx.id, user_id := ctx.user_id, request_id := ctx.request_id,
        content_type := ctx.content_type,
        final_verdict := finalVerdict weighted,
        ai_likelihood := aiLikelihood weighted,
        agreement_level := agreementOf (outs.map ModelOutput.normalized_score),
        scam_risk_score := risk (outs.map ModelOutput.structural_flags).flatten,
        behavioral_score := ctx.behavioral_score,
        model_outputs := weighted,
        evidence := synthesizeEvidence sev outs,
        source := ctx.source,
        created_at := ctx.created_at }

/-! ## Row-level security on the `analyses` table (Supabase SQL schema)

The schema enables RLS on `analyses` and declares exactly three policies,
each with the predicate `auth.uid() = user_id`: SELECT ("Users can view own
analyses"), INSERT ("Users can insert own analyses"), DELETE ("Users can
delete own analyses"). Under PostgreSQL row-level security, an operation on
a row is permitted iff some policy for that command admits it; with no
UPDATE policy declared, updates are denied outright. -/

inductive SqlOp
  | select
  | insert
  | update
  | delete
deriving DecidableEq, Repr

/-- The projection of an `analyses` row that the RLS predicates consult. -/
structure AnalysisRow where
  id : String
  user_id : String
deriving DecidableEq, Repr

/-- One `CREATE POLICY` declaration: the command it governs and its
`USING` / `WITH CHECK` predicate as a function of `auth.uid()` and the row. -/
structure RlsPolicy where
  name : String
  cmd : SqlOp
  predicate : String → AnalysisRow → Bool

/-- The three policies declared on `analyses` in the SQL schema. -/
def analysesPolicies : List RlsPolicy :=
  [ { name := "Users can view own analyses", cmd := SqlOp.select,
      predicate := fun uid row => uid == row.user_id },
    { name := "Users can insert own analyses", cmd := SqlOp.insert,
      predicate := fun uid row => uid == row.user_id },
    { name := "Users can delete own analyses", cmd := SqlOp.delete,
      predicate := fun uid row => uid == row.user_id } ]

/-- Row-level-security semantics with RLS enabled: the operation `op` by the
authenticated user `uid` on `row` is permitted iff some declared policy for
that command admits it. -/
def rlsPermits (uid : String) (op : SqlOp) (row : AnalysisRow) : Bool :=
  analysesPolicies.any fun p => p.cmd == op && p.predicate uid row

/-! ## Presentation of the final verdict

`FinalVerdictCard` (src/components/analysis/FinalVerdictCard.tsx) computes
`isAI = verdict === "ai_generated"` and shows the heading
`isAI ? "AI-Generated" : "Likely Real"`. The extension popup's `showResult`
(src/extension/popup.js) computes `isAI = result.final_verdict ===
"ai_generated"` and sets `resultVerdict.textContent` the same way. -/

/-- The props of `FinalVerdictCard`. -/
structure FinalVerdictCardProps where
  verdict : Verdict
  aiLikelihood : ℚ
  agreementLevel : AgreementLevel
  contentType : String
deriving DecidableEq, Repr

/-- The heading text rendered by `FinalVerdictCard`. -/
def finalVerdictCardHeading (p : FinalVerdictCardProps) : String :=
  if p.verdict = Verdict.ai_generated then "AI-Generated" else "Likely Real"

/-- The verdict text set by the extension popup's `showResult`. -/
def popupVerdictText (result : Analysis) : String :=
  if result.final_verdict = Verdict.ai_generated then "AI-Generated"
  else "Likely Real"

/-! ## Concrete sample inputs used by the witnesses -/

/-- A model output voting `ai_generated` with confidence 0.9 (spec
Scenario B). -/
def sampleAiOutput : ModelOutput :=
  { model := "model-a", verdict := Verdict.ai_generated, confidence := 9/10,
    reasons := [], structural_flags := [], weight := 1/2,
    normalized_score := 9/10 }

/-- A model output voting `real` with confidence 0.9, hence normalized
score 0.1 (spec Scenario B). -/
def sampleRealOutput : ModelOutput :=
  { model := "model-b", verdict := Verdict.real, confidence := 9/10,
    reasons := [], structural_flags := [], weight := 1/2,
    normalized_score := 1/10 }

/-- Spec Scenario B: two opposed high-confidence outputs at weight ½ each. -/
def sampleOuts : List ModelOutput := [sampleAiOutput, sampleRealOutput]

/-- A raw output reporting `real` with confidence 0.9. -/
def sampleRawReal : RawModelOutput :=
  { model := "vision-detector", verdict := "real", confidence := 9/10,
    reasons := [], structural_flags := [] }

/-- The normalized form of `sampleRawReal`. -/
def sampleNormalizedReal : ModelOutput :=
  { model := "vision-detector", verdict := Verdict.real, confidence := 9/10,
    reasons := [], structural_flags := [], weight := 0,
    normalized_score := 1 - 9/10 }

/-- A raw output with an unknown verdict label. -/
def unknownVerdictRaw : RawModelOutput :=
  { model := "m1", verdict := "unsure", confidence := 1/2,
    reasons := [], structural_flags := [] }

/-- A raw output whose confidence exceeds 1. -/
def overconfidentRaw : RawModelOutput :=
  { model := "m2", verdict := "ai_generated", confidence := 3/2,
    reasons := [], structural_flags := [] }

/-- A fixed request context for witnesses. -/
def sampleContext : RequestContext :=
  { id := "id0", user_id := "u0", request_id := "r0",
    content_type := ContentType.image, source := Source.web,
    behavioral_score := 0, created_at := "t0" }

end EcoTrace

namespace EcoTrace

/-! ## Shared helper lemmas -/

/-- Dividing every element of a list by a constant divides its sum. -/
theorem list_sum_map_div (l : List ℚ) (t : ℚ) :
    (l.map fun x => x / t).sum = l.sum / t := by
  induction l with
  | nil => simp
  | cons a l ih => simp [ih, add_div]

/-- The sum of a positive function over a non-empty list is positive. -/
theorem list_sum_map_pos {α : Type} (l : List α) (f : α → ℚ) (hne : l ≠ [])
    (hpos : ∀ m ∈ l, 0 < f m) : 0 < (l.map f).sum := by
  cases l with
  | nil => exact absurd rfl hne
  | cons a l =>
    simp only [List.map_cons, List.sum_cons]
    have h1 : 0 < f a := hpos a (List.mem_cons_self a l)
    have h2 : 0 ≤ (l.map f).sum := by
      apply List.sum_nonneg
      intro x hx
      obtain ⟨m, hm, rfl⟩ := List.mem_map.1 hx
      exact le_of_lt (hpos m (List.mem_cons_of_mem a hm))
    linarith

/-- C10: `ScamRiskIndicator` renders nothing exactly when
`scam_risk_score ≤ 0`; for positive scores the displayed label is
"High Risk" exactly when `score ≥ 0.7`, "Moderate Risk" exactly when
`0.4 ≤ score < 0.7`, and "Low Risk" otherwise. -/
theorem scamRiskIndicator_threshold_spec (score : ℚ) :
    (scamRiskRender score = none ↔ score ≤ 0) ∧
    (scamRiskRender score = some "High Risk" ↔ 7/10 ≤ score) ∧
    (scamRiskRender score = some "Moderate Risk" ↔ 4/10 ≤ score ∧ score < 7/10) ∧
    (scamRiskRender score = some "Low Risk" ↔ 0 < score ∧ score < 4/10) := by
  unfold scamRiskRender scamRiskLabel
  split_ifs with h0 h1 h2
  · exact ⟨iff_of_true rfl h0,
      iff_of_false (by simp) (fun h => by linarith),
      iff_of_false (by simp) (fun h => by linarith [h.1]),
      iff_of_false (by simp) (fun h => by linarith [h.1])⟩
  · exact ⟨iff_of_false (by simp) h0,
      iff_of_true rfl h1,
      iff_of_false (by simp) (fun h => by linarith [h.2]),
      iff_of_false (by simp) (fun h => by linarith [h.2])⟩
  · exact ⟨iff_of_false (by simp) h0,
      iff_of_false (by simp) h1,
      iff_of_true rfl ⟨h2, lt_of_not_le h1⟩,
      iff_of_false (by simp) (fun h => by linarith [h.2])⟩
  · exact ⟨iff_of_false (by simp) h0,
      iff_of_false (by simp) h1,
      iff_of_false (by simp) (fun h => h2 h.1),
      iff_of_true rfl ⟨lt_of_not_le h0, lt_of_not_le h2⟩⟩

/-- C9 as stated is false on the code: an evidence item whose severity
string is "constructor" — not one of high/medium/low — hits a truthy member
inherited from `Object.prototype`, so the `|| severityConfig.low` fallback
does not fire and the component throws instead of rendering with the
low-severity presentation. -/
theorem evidenceList_prototype_counterexample :
    evidenceItemConfig ⟨"texture", "odd texture", "constructor"⟩
      ≠ some severityConfigLow ∧
    evidenceListRender (some [⟨"texture", "odd texture", "constructor"⟩])
      = EvidenceListResult.renderError := by
  constructor <;> decide

/-- C9 (amended): `EvidenceList` renders nothing for missing or empty
evidence; an item whose severity string is neither a declared severity
("high"/"medium"/"low") nor an `Object.prototype` property name falls back
to the low-severity presentation and renders; an item whose severity names
an inherited `Object.prototype` member makes the component throw instead of
falling back. -/
theorem evidenceList_total_spec (item pitem : EvidenceItem)
    (h1 : item.severity ≠ "high") (h2 : item.severity ≠ "medium")
    (h3 : item.severity ≠ "low")
    (h4 : item.severity ∉ objectPrototypeKeys)
    (hp : pitem.severity ∈ objectPrototypeKeys) :
    evidenceListRender none = EvidenceListResult.null ∧
    evidenceListRender (some []) = EvidenceListResult.null ∧
    evidenceItemConfig item = some severityConfigLow ∧
    evidenceListRender (some [item])
      = EvidenceListResult.rendered [(item, severityConfigLow)] ∧
    evidenceListRender (some [pitem]) = EvidenceListResult.renderError := by
  have e1 : pitem.severity ≠ "high" := by
    intro h; rw [h] at hp; exact absurd hp (by decide)
  have e2 : pitem.severity ≠ "medium" := by
    intro h; rw [h] at hp; exact absurd hp (by decide)
  have e3 : pitem.severity ≠ "low" := by
    intro h; rw [h] at hp; exact absurd hp (by decide)
  have hcu : evidenceItemConfig item = some severityConfigLow := by
    simp [evidenceItemConfig, severityConfigGet, h1, h2, h3, h4]
  have hcp : evidenceItemConfig pitem = none := by
    simp [evidenceItemConfig, severityConfigGet, e1, e2, e3, hp]
  refine ⟨rfl, rfl, hcu, ?_, ?_⟩
  · simp [evidenceListRender, resolveConfigs, hcu]
  · simp [evidenceListRender, resolveConfigs, hcp]

/-- Witness for C9 (amended) at the unknown severity "critical" (falls back
to low and renders) and the prototype key "toString" (render throws). -/
theorem evidenceList_total_spec_witness :
    evidenceItemConfig ⟨"texture", "odd texture", "critical"⟩
      = some severityConfigLow ∧
    evidenceListRender (some [⟨"meta", "odd metadata", "toString"⟩])
      = EvidenceListResult.renderError :=
  ⟨(evidenceList_total_spec ⟨"texture", "odd texture", "critical"⟩
      ⟨"meta", "odd metadata", "toString"⟩
      (by decide) (by decide) (by decide) (by decide) (by decide)).2.2.1,
   (evidenceList_total_spec ⟨"texture", "odd texture", "critical"⟩
      ⟨"meta", "odd metadata", "toString"⟩
      (by decide) (by decide) (by decide) (by decide) (by decide)).2.2.2.2⟩

/-- C7: under the declared row-level-security policies, a stored `analyses`
row can never be updated by anyone; it can be deleted exactly by its owning
user, and read exactly by its owning user. -/
theorem analyses_rls_immutable_owner_scoped (uid : String) (row : AnalysisRow) :
    rlsPermits uid SqlOp.update row = false ∧
    (rlsPermits uid SqlOp.delete row = true ↔ uid = row.user_id) ∧
    (rlsPermits uid SqlOp.select row = true ↔ uid = row.user_id) := by
  refine ⟨?_, ?_, ?_⟩ <;>
    simp [rlsPermits, analysesPolicies, List.any_cons, List.any_nil]

/-- C8: the verdict label displayed by the web result card and by the
extension popup is determined solely by the stored `final_verdict` field —
it is unchanged under any variation of `ai_likelihood` (or any other field),
and equals "AI-Generated" exactly when the stored verdict is `ai_generated`. -/
theorem presentation_verdict_readonly (p : FinalVerdictCardProps)
    (a : Analysis) (l l' : ℚ) :
    finalVerdictCardHeading { p with aiLikelihood := l }
      = finalVerdictCardHeading { p with aiLikelihood := l' } ∧
    popupVerdictText { a with ai_likelihood := l }
      = popupVerdictText { a with ai_likelihood := l' } ∧
    (finalVerdictCardHeading p = "AI-Generated" ↔ p.verdict = Verdict.ai_generated) ∧
    (popupVerdictText a = "AI-Generated" ↔ a.final_verdict = Verdict.ai_generated) := by
  refine ⟨rfl, rfl, ?_, ?_⟩
  · unfold finalVerdictCardHeading
    split_ifs with h
    · exact iff_of_true rfl h
    · exact iff_of_false (by decide) h
  · unfold popupVerdictText
    split_ifs with h
    · exact iff_of_true rfl h
    · exact iff_of_false (by decide) h

/-- C1: over any non-empty batch of normalized outputs with resolved weights
(non-negative, summing to 1) and scores in [0,1], the Consensus Aggregator's
`ai_likelihood` is the weighted sum of the normalized scores, lies in [0,1],
and `final_verdict = ai_generated` exactly when `ai_likelihood ≥ 0.5`, the
tie at exactly 0.5 going to `ai_generated`. -/
theorem consensusAggregator_spec (outs : List ModelOutput)
    (_hne : outs ≠ [])
    (hw : ∀ o ∈ outs, 0 ≤ o.weight)
    (hs : ∀ o ∈ outs, 0 ≤ o.normalized_score ∧ o.normalized_score ≤ 1)
    (hsum : (outs.map ModelOutput.weight).sum = 1) :
    aiLikelihood outs = (outs.map fun o => o.normalized_score * o.weight).sum ∧
    0 ≤ aiLikelihood outs ∧ aiLikelihood outs ≤ 1 ∧
    (finalVerdict outs = Verdict.ai_generated ↔ 1/2 ≤ aiLikelihood outs) ∧
    (aiLikelihood outs = 1/2 → finalVerdict outs = Verdict.ai_generated) := by
  have h0 : 0 ≤ aiLikelihood outs := by
    apply List.sum_nonneg
    intro x hx
    obtain ⟨o, ho, rfl⟩ := List.mem_map.1 hx
    exact mul_nonneg (hs o ho).1 (hw o ho)
  have h1 : aiLikelihood outs ≤ 1 := by
    calc aiLikelihood outs ≤ (outs.map ModelOutput.weight).sum := by
          apply List.sum_le_sum
          intro o ho
          exact mul_le_of_le_one_left (hw o ho) (hs o ho).2
      _ = 1 := hsum
  refine ⟨rfl, h0, h1, ?_, ?_⟩
  · unfold finalVerdict
    split_ifs with h
    · exact iff_of_true rfl h
    · exact iff_of_false (by decide) h
  · intro he
    unfold finalVerdict
    rw [if_pos (le_of_eq he.symm)]

/-- Witness for C1 on spec Scenario B (two opposed outputs at weight ½,
likelihood exactly ½, tie classified `ai_generated`). -/
theorem consensusAggregator_spec_witness :
    0 ≤ aiLikelihood sampleOuts ∧ aiLikelihood sampleOuts ≤ 1 ∧
    (finalVerdict sampleOuts = Verdict.ai_generated ↔
      1/2 ≤ aiLikelihood sampleOuts) ∧
    (aiLikelihood sampleOuts = 1/2 →
      finalVerdict sampleOuts = Verdict.ai_generated) :=
  (consensusAggregator_spec sampleOuts (by simp [sampleOuts])
    (by intro o ho
        simp only [sampleOuts, List.mem_cons, List.mem_singleton,
          List.not_mem_nil, or_false] at ho
        rcases ho with rfl | rfl <;> norm_num [sampleAiOutput, sampleRealOutput])
    (by intro o ho
        simp only [sampleOuts, List.mem_cons, List.mem_singleton,
          List.not_mem_nil, or_false] at ho
        rcases ho with rfl | rfl <;>
          exact ⟨by norm_num [sampleAiOutput, sampleRealOutput],
                 by norm_num [sampleAiOutput, sampleRealOutput]⟩)
    (by norm_num [sampleOuts, sampleAiOutput, sampleRealOutput])).2

/-- C3: over a non-empty live model set with positive base weights, the
Weight Resolver gives each live model `base_i / Σ base_j` over live models
only, the resulting weights sum to exactly 1 (hence within 1e-9 of 1.0),
and a lone responding model receives weight 1. -/
theorem weightResolver_sums_to_one (base : String → ℚ) (live : List String)
    (hne : live ≠ []) (hpos : ∀ m ∈ live, 0 < base m) :
    (∀ m, resolveWeight base live m = base m / (live.map base).sum) ∧
    (live.map (resolveWeight base live)).sum = 1 ∧
    |(live.map (resolveWeight base live)).sum - 1| ≤ 1 / 1000000000 ∧
    (∀ m, live = [m] → resolveWeight base live m = 1) := by
  have ht : 0 < (live.map base).sum := list_sum_map_pos live base hne hpos
  have hsum : (live.map (resolveWeight base live)).sum = 1 := by
    have hmap : live.map (resolveWeight base live)
        = (live.map base).map fun x => x / (live.map base).sum := by
      simp [resolveWeight, List.map_map, Function.comp_def]
    rw [hmap, list_sum_map_div, div_self (ne_of_gt ht)]
  refine ⟨fun m => rfl, hsum, by rw [hsum]; norm_num, ?_⟩
  intro m hm
  subst hm
  have hbm : 0 < base m := hpos m (List.mem_singleton_self m)
  simp [resolveWeight]
  exact div_self (ne_of_gt hbm)

/-- Witness for C3 on a concrete two-model live set with equal base
weights, and on a concrete single-model live set. -/
theorem weightResolver_sums_to_one_witness :
    ((["model-a", "model-b"].map
        (resolveWeight (fun _ => 3/4) ["model-a", "model-b"])).sum = 1) ∧
    resolveWeight (fun _ => 3/4) ["model-a"] "model-a" = 1 :=
  ⟨(weightResolver_sums_to_one (fun _ => 3/4) ["model-a", "model-b"]
      (by simp) (fun m _ => by norm_num)).2.1,
   (weightResolver_sums_to_one (fun _ => 3/4) ["model-a"]
      (by simp) (fun m _ => by norm_num)).2.2.2 "model-a" rfl⟩

/-- C4: a batch with zero usable model outputs makes the pipeline fail with
the distinct "no analysis possible" error, and no `Analysis` is assembled. -/
theorem pipeline_zero_usable_fails (base : String → ℚ) (sev : String → String)
    (risk : List String → ℚ) (ctx : RequestContext)
    (raws : List RawModelOutput) (h : usableOutputs raws = []) :
    runPipeline base sev risk ctx raws
      = Except.error PipelineError.noAnalysisPossible ∧
    ∀ a : Analysis, runPipeline base sev risk ctx raws ≠ Except.ok a := by
  have he : runPipeline base sev risk ctx raws
      = Except.error PipelineError.noAnalysisPossible := by
    unfold runPipeline
    rw [h]
  refine ⟨he, fun a hok => ?_⟩
  rw [he] at hok
  exact Except.noConfusion hok

/-- Witness for C4: a batch whose only output has an unknown verdict label
is unusable, and the pipeline rejects it. -/
theorem pipeline_zero_usable_fails_witness :
    runPipeline (fun _ => 1) (fun _ => "low") (fun _ => 0) sampleContext
      [unknownVerdictRaw]
      = Except.error PipelineError.noAnalysisPossible :=
  (pipeline_zero_usable_fails (fun _ => 1) (fun _ => "low") (fun _ => 0)
    sampleContext [unknownVerdictRaw]
    (by simp [usableOutputs, unknownVerdictRaw, normalizeRaw, parseVerdict])).1

/-- C5: a raw output whose confidence is outside [0,1] or whose verdict
label is unknown is discarded entirely before weighting — it is never
clamped into the weighted sum — and the rest of the batch is processed
exactly as if the malformed output had never been present. -/
theorem malformed_output_discarded (r : RawModelOutput)
    (hbad : (r.confidence < 0 ∨ 1 < r.confidence) ∨
            (r.verdict ≠ "ai_generated" ∧ r.verdict ≠ "real"))
    (base : String → ℚ) (sev : String → String) (risk : List String → ℚ)
    (ctx : RequestContext) (pre post : List RawModelOutput) :
    normalizeRaw r = none ∧
    usableOutputs (pre ++ r :: post) = usableOutputs (pre ++ post) ∧
    runPipeline base sev risk ctx (pre ++ r :: post)
      = runPipeline base sev risk ctx (pre ++ post) := by
  have hn : normalizeRaw r = none := by
    rcases hbad with hconf | ⟨hv1, hv2⟩
    · have hno : ¬ (0 ≤ r.confidence ∧ r.confidence ≤ 1) := by
        rintro ⟨ha, hb⟩
        rcases hconf with h | h <;> linarith
      unfold normalizeRaw
      cases parseVerdict r.verdict with
      | none => rfl
      | some v => exact if_neg hno
    · unfold normalizeRaw parseVerdict
      rw [if_neg hv1, if_neg hv2]
  have hu : usableOutputs (pre ++ r :: post) = usableOutputs (pre ++ post) := by
    simp [usableOutputs, List.filterMap_append, List.filterMap_cons, hn]
  refine ⟨hn, hu, ?_⟩
  unfold runPipeline
  rw [hu]

/-- Witness for C5: an output with confidence 1.5 is discarded and the
singleton batch containing it behaves like the empty batch. -/
theorem malformed_output_discarded_witness :
    normalizeRaw overconfidentRaw = none ∧
    usableOutputs ([] ++ overconfidentRaw :: []) = usableOutputs ([] ++ []) :=
  ⟨(malformed_output_discarded overconfidentRaw (by norm_num [overconfidentRaw])
      (fun _ => 1) (fun _ => "low") (fun _ => 0) sampleContext [] []).1,
   (malformed_output_discarded overconfidentRaw (by norm_num [overconfidentRaw])
      (fun _ => 1) (fun _ => "low") (fun _ => 0) sampleContext [] []).2.1⟩

/-- C6: increasing one model's `normalized_score` while every weight and
every other model's score stays fixed cannot decrease `ai_likelihood`. -/
theorem aiLikelihood_monotone (pre post : List ModelOutput) (o : ModelOutput)
    (s : ℚ) (hs : o.normalized_score ≤ s) (hw : 0 ≤ o.weight) :
    aiLikelihood (pre ++ o :: post)
      ≤ aiLikelihood (pre ++ { o with normalized_score := s } :: post) := by
  simp only [aiLikelihood, List.map_append, List.map_cons, List.sum_append,
    List.sum_cons]
  have hterm : o.normalized_score * o.weight ≤ s * o.weight :=
    mul_le_mul_of_nonneg_right hs hw
  exact add_le_add_left (add_le_add_right hterm _) _

/-- Witness for C6: raising the `real`-voting model's score from 0.1 to
0.95 does not decrease the likelihood. -/
theorem aiLikelihood_monotone_witness :
    aiLikelihood ([sampleAiOutput] ++ sampleRealOutput :: [])
      ≤ aiLikelihood ([sampleAiOutput] ++
          { sampleRealOutput with normalized_score := 19/20 } :: []) :=
  aiLikelihood_monotone [sampleAiOutput] [] sampleRealOutput (19/20)
    (by norm_num [sampleRealOutput]) (by norm_num [sampleRealOutput])

/-- C2 as stated is false on the modelled Normalizer: a model reporting
`ai_generated` with confidence 0.3 yields a produced `NormalizedOutput`
whose verdict is `ai_generated` but whose `normalized_score` is 0.3 < 0.5,
violating the claimed equivalence. -/
theorem normalizer_direction_counterexample :
    normalizeRaw { model := "m", verdict := "ai_generated", confidence := 3/10,
                   reasons := [], structural_flags := [] }
      = some { model := "m", verdict := Verdict.ai_generated,
               confidence := 3/10, reasons := [], structural_flags := [],
               weight := 0, normalized_score := 3/10 } ∧
    ¬ ((1:ℚ)/2 ≤ 3/10) := by
  exact ⟨by norm_num [normalizeRaw, parseVerdict], by norm_num⟩

/-- C2 (amended): for a raw output with a known verdict label and confidence
in [0,1], the Normalizer produces `normalized_score = confidence` for
`ai_generated` and `1 - confidence` for `real`; the direction equivalence
`verdict = ai_generated ↔ normalized_score ≥ 0.5` holds whenever the
reported confidence strictly exceeds 0.5. -/
theorem normalizer_spec_amended (r : RawModelOutput) (v : Verdict)
    (o : ModelOutput) (hpv : parseVerdict r.verdict = some v)
    (h0 : 0 ≤ r.confidence) (h1 : r.confidence ≤ 1)
    (hn : normalizeRaw r = some o) :
    o.verdict = v ∧
    (v = Verdict.ai_generated → o.normalized_score = r.confidence) ∧
    (v = Verdict.real → o.normalized_score = 1 - r.confidence) ∧
    (1/2 < r.confidence →
      (o.verdict = Verdict.ai_generated ↔ 1/2 ≤ o.normalized_score)) := by
  have hsome : (if 0 ≤ r.confidence ∧ r.confidence ≤ 1 then
      some { model := r.model, verdict := v, confidence := r.confidence,
             reasons := r.reasons, structural_flags := r.structural_flags,
             weight := 0,
             normalized_score :=
               if v = Verdict.ai_generated then r.confidence
               else 1 - r.confidence } else none) = some o := by
    rw [← hn]
    unfold normalizeRaw
    rw [hpv]
  rw [if_pos ⟨h0, h1⟩] at hsome
  injection hsome with hsome
  subst hsome
  cases v with
  | ai_generated =>
    refine ⟨rfl, fun _ => by simp, fun h => by simp at h, fun hc => ?_⟩
    exact iff_of_true rfl (by simpa using le_of_lt hc)
  | real =>
    refine ⟨rfl, fun h => by simp at h, fun _ => by simp, fun hc => ?_⟩
    refine iff_of_false (by simp) fun h => ?_
    simp only [Verdict.real, reduceIte] at h
    simp at h
    linarith

/-- Witness for C2 (amended) on a model reporting `real` with confidence
0.9: the produced score is 0.1 and the direction equivalence holds. -/
theorem normalizer_spec_amended_witness :
    sampleNormalizedReal.verdict = Verdict.ai_generated ↔
      (1:ℚ)/2 ≤ sampleNormalizedReal.normalized_score :=
  (normalizer_spec_amended sampleRawReal Verdict.real sampleNormalizedReal
    rfl
    (by norm_num [sampleRawReal]) (by norm_num [sampleRawReal])
    (by
      have h : normalizeRaw sampleRawReal
          = if 0 ≤ sampleRawReal.confidence ∧ sampleRawReal.confidence ≤ 1
            then some sampleNormalizedReal else none := rfl
      rw [h, if_pos]
      constructor <;> norm_num [sampleRawReal])).2.2.2
    (by norm_num [sampleRawReal])

end EcoTrace
